import Mathlib

/-!
Shallow embedding of the `decode` package of the magic-decoder repository
(`decode.go`): the tag-driven field-population engine `ParseToStruct` and
the pipeline runner `Magic`, together with executable models of the
standard-library routines they call (`strconv.ParseInt` / `ParseUint` /
`ParseFloat` / `Atoi`, `strings.Split` / `ToLower` / `Contains`, and
`time.ParseInLocation` at the five layouts the code uses).  Strings are
handled through their character lists; every piece of data the code's own
vocabulary involves is ASCII, where Go's byte indexing and Unicode case
mapping agree with the character-based model.  The in-place mutation of
the destination struct is rendered by returning the destination's final
contents next to the returned error.
-/

namespace Decode

/-- Go `map[string]string` lookup: a missing key yields the empty string. -/
def mapGet (m : List (String × String)) (k : String) : String :=
  match m with
  | [] => ""
  | (k₀, v) :: rest => if k₀ = k then v else mapGet rest k

/-- `reflect.StructTag.Get`: the tag string bound to a key, `""` when the
key is absent; the tag table is kept in its parsed key/value form. -/
def tagGet (tags : List (String × String)) (k : String) : String :=
  mapGet tags k

/-- `strings.Split` with a one-character separator (the code only splits
on `","`); `Split("", ",")` is `[""]`. -/
def splitOnChar (sep : Char) : List Char → List (List Char)
  | [] => [[]]
  | c :: cs =>
    match splitOnChar sep cs with
    | [] => [[]]
    | r :: rs => if c = sep then [] :: r :: rs else (c :: r) :: rs

/-- `strings.Split(s, ",")` as a list of strings. -/
def splitComma (s : String) : List String :=
  (splitOnChar ',' s.data).map fun cs => ⟨cs⟩

/-- `strings.ToLower` on one character, at the ASCII case mapping (the
boolean vocabulary the code compares against is all ASCII). -/
def lowerChar (c : Char) : Char :=
  if 65 ≤ c.toNat ∧ c.toNat ≤ 90 then Char.ofNat (c.toNat + 32) else c

/-- `strings.ToLower`. -/
def lowerStr (s : String) : String :=
  ⟨s.data.map lowerChar⟩

/-- Value of a decimal digit character. -/
def digitVal (c : Char) : Option Nat :=
  if 48 ≤ c.toNat ∧ c.toNat ≤ 57 then some (c.toNat - 48) else none

def digitsAux : List Char → Nat → Option Nat
  | [], acc => some acc
  | c :: cs, acc =>
    match digitVal c with
    | none => none
    | some d => digitsAux cs (acc * 10 + d)

/-- A base-10 digit run: at least one digit, digits only. -/
def digitsVal : List Char → Option Nat
  | [] => none
  | cs => digitsAux cs 0

/-- `strconv.ParseInt(s, 10, 64)`: optional sign, base-10 digits, and the
64-bit range check; an out-of-range value is reported as an error, which
is all the caller looks at. -/
def parseInt64 (s : String) : Option Int :=
  let signed : Option Int :=
    match s.data with
    | '+' :: rest => (digitsVal rest).map Int.ofNat
    | '-' :: rest => (digitsVal rest).map fun n => -(Int.ofNat n)
    | cs => (digitsVal cs).map Int.ofNat
  match signed with
  | none => none
  | some v => if -(2 ^ 63) ≤ v ∧ v ≤ 2 ^ 63 - 1 then some v else none

/-- `strconv.Atoi`, i.e. `ParseInt(s, 10, 0)` with the platform `int`
taken as 64-bit. -/
def atoi (s : String) : Option Int :=
  parseInt64 s

/-- `strconv.ParseUint(s, 10, 64)`: no sign prefix is permitted. -/
def parseUint64 (s : String) : Option Nat :=
  match digitsVal s.data with
  | none => none
  | some n => if n ≤ 2 ^ 64 - 1 then some n else none

/-- Longest leading digit run and the rest of the input. -/
def takeDigits : List Char → List Nat × List Char
  | [] => ([], [])
  | c :: cs =>
    match digitVal c with
    | none => ([], c :: cs)
    | some d =>
      match takeDigits cs with
      | (ds, rest) => (d :: ds, rest)

def digitsToNat (ds : List Nat) : Nat :=
  ds.foldl (fun a d => a * 10 + d) 0

/-- Exponent suffix of a float literal: optional sign and digits. -/
def expPart (mant : Rat) : List Char → Option Rat
  | '+' :: cs =>
    match digitsVal cs with
    | none => none
    | some e => some (mant * 10 ^ e)
  | '-' :: cs =>
    match digitsVal cs with
    | none => none
    | some e => some (mant / 10 ^ e)
  | cs =>
    match digitsVal cs with
    | none => none
    | some e => some (mant * 10 ^ e)

/-- Unsigned decimal mantissa with optional fraction and exponent. -/
def floatCore (cs : List Char) : Option Rat :=
  match takeDigits cs with
  | (intDs, rest₁) =>
    let frac : List Nat × List Char :=
      match rest₁ with
      | '.' :: cs₂ => takeDigits cs₂
      | _ => ([], rest₁)
    match frac with
    | (frDs, rest₂) =>
      if intDs.isEmpty ∧ frDs.isEmpty then none
      else
        let mant : Rat :=
          (digitsToNat intDs : Rat) + (digitsToNat frDs : Rat) / (10 : Rat) ^ frDs.length
        match rest₂ with
        | [] => some mant
        | 'e' :: cs₃ => expPart mant cs₃
        | 'E' :: cs₃ => expPart mant cs₃
        | _ => none

/-- `strconv.ParseFloat(s, 64)`, modelled on the plain decimal forms
(optional sign, digits with optional fraction and decimal exponent); the
value is kept exactly as a rational since no caller here inspects IEEE
rounding, and the special spellings (`inf`, `nan`, hex mantissas,
digit-group underscores) do not occur in any behavior under analysis. -/
def parseFloat64 (s : String) : Option Rat :=
  match s.data with
  | '+' :: cs => floatCore cs
  | '-' :: cs => (floatCore cs).map Neg.neg
  | cs => floatCore cs

/-- A fixed-width zero-padded numeric layout field (`getnum` of the
`time` package with `fixed = true`): exactly `n` digits. -/
def readFixed : Nat → Nat → List Char → Option (Nat × List Char)
  | 0, acc, cs => some (acc, cs)
  | _ + 1, _, [] => none
  | n + 1, acc, c :: cs =>
    match digitVal c with
    | none => none
    | some d => readFixed n (acc * 10 + d) cs

/-- One required literal character of a layout. -/
def expectChar (ch : Char) : List Char → Option (List Char)
  | [] => none
  | c :: cs => if c = ch then some cs else none

/-- Gregorian leap year (`time.isLeap`). -/
def isLeap (y : Nat) : Bool :=
  y % 4 == 0 && (!(y % 100 == 0) || y % 400 == 0)

/-- Days in a month (`time.daysIn`). -/
def daysIn (m y : Nat) : Nat :=
  if m = 2 then (if isLeap y then 29 else 28)
  else if m = 4 ∨ m = 6 ∨ m = 9 ∨ m = 11 then 30
  else 31

/-- The location attached to a parsed `time.Time`.  `ParseInLocation`
attaches the given location (`time.Local` in this code) when the layout
carries no zone, `UTC` for a literal `Z`, and a fixed offset in seconds
east of UTC when the layout's `Z07:00` matched a numeric offset;
reconciling a matched offset against the local zone's name table is not
modelled, the offset itself is kept. -/
inductive GoLoc
  | utc
  | local
  | fixedOffset (secs : Int)
deriving DecidableEq, Repr

/-- The observable fields of a `time.Time` here: the wall-clock reading
together with its location. -/
structure GoTime where
  year : Nat
  month : Nat
  day : Nat
  hour : Nat
  minute : Nat
  second : Nat
  loc : GoLoc
deriving DecidableEq, Repr

/-- The zero `time.Time`: January 1, year 1, 00:00:00 UTC. -/
def zeroTime : GoTime :=
  ⟨1, 1, 1, 0, 0, 0, .utc⟩

/-- Parse `2006-01-02` off the front of the input, with the month and
day-of-month range checks `Parse` performs. -/
def readDate (cs : List Char) : Option (Nat × Nat × Nat × List Char) := do
  let (y, cs) ← readFixed 4 0 cs
  let cs ← expectChar '-' cs
  let (m, cs) ← readFixed 2 0 cs
  let cs ← expectChar '-' cs
  let (d, cs) ← readFixed 2 0 cs
  if 1 ≤ m ∧ m ≤ 12 ∧ 1 ≤ d ∧ d ≤ daysIn m y then return (y, m, d, cs) else none

/-- Parse `15:04:05` off the front of the input, with the hour, minute
and second range checks `Parse` performs. -/
def readClock (cs : List Char) : Option (Nat × Nat × Nat × List Char) := do
  let (h, cs) ← readFixed 2 0 cs
  let cs ← expectChar ':' cs
  let (mi, cs) ← readFixed 2 0 cs
  let cs ← expectChar ':' cs
  let (sec, cs) ← readFixed 2 0 cs
  if h ≤ 23 ∧ mi ≤ 59 ∧ sec ≤ 59 then return (h, mi, sec, cs) else none

/-- A `±hh:mm` numeric zone offset in seconds, without the sign. -/
def readOffset (zs : List Char) : Option Int := do
  let (zh, zs) ← readFixed 2 0 zs
  let zs ← expectChar ':' zs
  let (zm, zs) ← readFixed 2 0 zs
  match zs with
  | [] => if zh ≤ 23 ∧ zm ≤ 59 then return ((zh * 3600 + zm * 60 : Nat) : Int) else none
  | _ => none

/-- `time.ParseInLocation("2006-01-02", v, time.Local)`: the whole input
must be consumed; omitted clock fields default to zero. -/
def parseLayoutDate (cs : List Char) : Option GoTime := do
  let (y, m, d, rest) ← readDate cs
  match rest with
  | [] => return ⟨y, m, d, 0, 0, 0, .local⟩
  | _ => none

/-- `time.ParseInLocation("2006-01-02 15:04:05", v, time.Local)` with
`sep` the literal separating date and clock (`' '` or `'T'`). -/
def parseLayoutDateTime (sep : Char) (cs : List Char) : Option GoTime := do
  let (y, m, d, rest) ← readDate cs
  let rest ← expectChar sep rest
  let (h, mi, s, rest) ← readClock rest
  match rest with
  | [] => return ⟨y, m, d, h, mi, s, .local⟩
  | _ => none

/-- `time.ParseInLocation("15:04:05", v, time.Local)`: layout fields that
are omitted default to year 0, January 1. -/
def parseLayoutClock (cs : List Char) : Option GoTime := do
  let (h, mi, s, rest) ← readClock cs
  match rest with
  | [] => return ⟨0, 1, 1, h, mi, s, .local⟩
  | _ => none

/-- `time.ParseInLocation(time.RFC3339, v, time.Local)`:
`2006-01-02T15:04:05` followed by `Z` or a `±hh:mm` offset. -/
def parseLayoutRFC3339 (cs : List Char) : Option GoTime := do
  let (y, m, d, rest) ← readDate cs
  let rest ← expectChar 'T' rest
  let (h, mi, s, rest) ← readClock rest
  match rest with
  | ['Z'] => return ⟨y, m, d, h, mi, s, .utc⟩
  | '+' :: zs => (readOffset zs).map fun o => ⟨y, m, d, h, mi, s, .fixedOffset o⟩
  | '-' :: zs => (readOffset zs).map fun o => ⟨y, m, d, h, mi, s, .fixedOffset (-o)⟩
  | _ => none

/-- The `time.Time` branch of `ParseToStruct`: the length-classed layout
choice with truncation, the `T` test made on the untruncated value, and
— when no length class applies — the declared zero `time.Time`, which is
still stored into the field afterwards.  Lengths are byte lengths in Go,
character counts here (identical on the ASCII data involved). -/
def parseTimeValue (value : String) : Option GoTime :=
  let cs := value.data
  if 25 ≤ cs.length then parseLayoutRFC3339 (cs.take 25)
  else if 19 ≤ cs.length then
    if cs.contains 'T' then parseLayoutDateTime 'T' (cs.take 19)
    else parseLayoutDateTime ' ' (cs.take 19)
  else if 10 ≤ cs.length then parseLayoutDate (cs.take 10)
  else if 8 ≤ cs.length then parseLayoutClock (cs.take 8)
  else some zeroTime

/-- The `reflect.Kind`-level classification `ParseToStruct` switches on,
refined by the bit widths of the numeric kinds and, inside `Struct` and
`Slice`, by the further type tests the code performs (`time.Time`,
`[]int`, `[]string`).  `otherKind` stands for every remaining kind
(pointer, map, chan, func, complex, array, ...), which the switch does
not mention. -/
inductive GoKind
  | bool
  | int (width : Nat)
  | uint (width : Nat)
  | float (width : Nat)
  | iface
  | str
  | timeStruct
  | otherStruct
  | sliceInt
  | sliceString
  | sliceOther
  | otherKind
deriving DecidableEq, Repr

/-- A field's current contents.  Interface fields are modelled at the
empty-interface instantiation (`none` = nil, `some s` = a stored string,
which is what the code assigns); the contents of unsupported kinds are
opaque. -/
inductive GoValue
  | bool (b : Bool)
  | int (v : Int)
  | uint (v : Nat)
  | float (v : Rat)
  | iface (v : Option String)
  | str (s : String)
  | time (t : GoTime)
  | structVal
  | sliceInt (l : List Int)
  | sliceString (l : List String)
  | otherVal
deriving DecidableEq, Repr

/-- One struct field as `ParseToStruct` sees it through `reflect`:
settability, anonymity, the parsed struct-tag table, its declared kind
and its current value. -/
structure Field where
  canSet : Bool
  anonymous : Bool
  tags : List (String × String)
  kind : GoKind
  value : GoValue
deriving DecidableEq, Repr

/-- The `container interface{}` argument: the nil interface, a pointer
to a struct (with its fields), or any other non-nil value, which fails
`isStructPtr`. -/
inductive Container
  | nil
  | structPtr (fields : List Field)
  | notStructPtr
deriving DecidableEq, Repr

/-- `isStructPtr`: the argument's type is a pointer whose element type is
a struct. -/
def isStructPtr : Container → Bool
  | .structPtr _ => true
  | _ => false

/-- The error values the code can return: the `%v must be  a struct
pointer` usage error, `strconv` parse errors, and `time` parse errors. -/
inductive GoError
  | typeErr
  | numErr
  | timeErr
deriving DecidableEq, Repr

/-- `reflect.Value.SetInt` on a field of the given bit width: the store
goes through Go's converting assignment (e.g. `int8(x)`), which keeps the
low `width` bits of the two's-complement representation. -/
def setIntWrap (width : Nat) (x : Int) : Int :=
  Int.bmod x (2 ^ width)

/-- `reflect.Value.SetUint`: keeps the low `width` bits. -/
def setUintWrap (width : Nat) (x : Nat) : Nat :=
  x % 2 ^ width

/-- The `[]int` element loop: the field already holds the fresh
zero-valued slice `cur`; each piece is parsed with `strconv.Atoi` and
stored at its index, and the first failure returns the error immediately,
the elements stored so far staying in place. -/
def intSliceLoop : List String → Nat → List Int → Option GoError × List Int
  | [], _, cur => (none, cur)
  | p :: ps, i, cur =>
    match atoi p with
    | none => (some .numErr, cur)
    | some v => intSliceLoop ps (i + 1) (cur.set i v)

/-- One iteration of the field loop of `ParseToStruct`: the settability
and embedded-struct skips, the tag read (first comma-separated item, `""`
and `"-"` skipped), the empty-raw-value skip, and the kind switch.  The
result pairs the error (if any) with the field's final contents. -/
def coerceField (structTag : String) (form : List (String × String)) (f : Field) :
    Option GoError × Field :=
  if f.canSet = false then (none, f)
  else if f.anonymous = true ∧ (f.kind = .timeStruct ∨ f.kind = .otherStruct) then (none, f)
  else
    let tag : String := (splitComma (tagGet f.tags structTag)).headD ""
    if tag = "" ∨ tag = "-" then (none, f)
    else
      let value := mapGet form tag
      if value = "" then (none, f)
      else
        match f.kind with
        | .bool =>
          let lv := lowerStr value
          if lv = "on" ∨ lv = "1" ∨ lv = "yes" ∨ lv = "true" then
            (none, { f with value := .bool true })
          else if lv = "off" ∨ lv = "0" ∨ lv = "no" ∨ lv = "false" then
            (none, { f with value := .bool false })
          else (none, f)
        | .int w =>
          match parseInt64 value with
          | none => (some .numErr, f)
          | some x => (none, { f with value := .int (setIntWrap w x) })
        | .uint w =>
          match parseUint64 value with
          | none => (some .numErr, f)
          | some x => (none, { f with value := .uint (setUintWrap w x) })
        | .float _ =>
          match parseFloat64 value with
          | none => (some .numErr, f)
          | some x => (none, { f with value := .float x })
        | .iface => (none, { f with value := .iface (some value) })
        | .str => (none, { f with value := .str value })
        | .timeStruct =>
          match parseTimeValue value with
          | none => (some .timeErr, f)
          | some t => (none, { f with value := .time t })
        | .otherStruct => (none, f)
        | .sliceInt =>
          let pieces := splitComma (mapGet form tag)
          match intSliceLoop pieces 0 (List.replicate pieces.length 0) with
          | (e, l) => (e, { f with value := .sliceInt l })
        | .sliceString =>
          (none, { f with value := .sliceString (splitComma (mapGet form tag)) })
        | .sliceOther => (none, f)
        | .otherKind => (none, f)

/-- The field loop of `ParseToStruct`: fields are processed in
declaration order and the first error returns immediately, leaving the
later fields untouched. -/
def coerceFields (structTag : String) (form : List (String × String)) :
    List Field → Option GoError × List Field
  | [] => (none, [])
  | f :: fs =>
    match coerceField structTag form f with
    | (some e, f') => (some e, f' :: fs)
    | (none, f') =>
      match coerceFields structTag form fs with
      | (e, fs') => (e, f' :: fs')

/-- `ParseToStruct(structTag, form, container)`: the `form == nil` short
circuit comes first and returns a nil error for any container; then
`container == nil || !isStructPtr(...)` fails with the struct-pointer
usage error; then the field loop runs.  The pair holds the returned
error and the container's final contents. -/
def ParseToStruct (structTag : String) (form : Option (List (String × String)))
    (container : Container) : Option GoError × Container :=
  match form with
  | none => (none, container)
  | some form =>
    match container with
    | .structPtr fields =>
      match coerceFields structTag form fields with
      | (e, fields') => (e, .structPtr fields')
    | c => (some .typeErr, c)

/-- A `Decoder`: mutates the container and may fail.  The `*http.Request`
argument is the same fixed request for every decoder in one `Magic` call
and is left implicit in each decoder's closure. -/
def Decoder : Type :=
  Container → Option GoError × Container

/-- The decoder loop of `Magic`: nil decoders are skipped, the others run
in order, and the first error is returned immediately. -/
def runDecoders : List (Option Decoder) → Container → Option GoError × Container
  | [], c => (none, c)
  | none :: ds, c => runDecoders ds c
  | some d :: ds, c =>
    match d c with
    | (some e, c') => (some e, c')
    | (none, c') => runDecoders ds c'

/-- `Magic(container, r, decoders...)`: the `container == nil ||
!isStructPtr(...)` validation, then the decoder loop. -/
def Magic (container : Container) (decoders : List (Option Decoder)) :
    Option GoError × Container :=
  if container = Container.nil ∨ isStructPtr container = false then
    (some .typeErr, container)
  else runDecoders decoders container

/-- A one-field struct fixture: a settable, non-anonymous field whose
`form` tag is `"x"`. -/
def oneField (k : GoKind) (v : GoValue) : Container :=
  .structPtr [⟨true, false, [("form", "x")], k, v⟩]

/-! ### Evaluation lemmas -/

/-- With an empty raw-value map every field is skipped at the
empty-raw-value test (or earlier), unchanged and without error. -/
theorem coerceField_empty_form (structTag : String) (f : Field) :
    coerceField structTag [] f = (none, f) := by
  unfold coerceField
  split
  · rfl
  · split
    · rfl
    · split <;> (dsimp only []; split <;> rfl)

/-- The field loop is the identity on an empty raw-value map. -/
theorem coerceFields_empty_form (structTag : String) (fs : List Field) :
    coerceFields structTag [] fs = (none, fs) := by
  induction fs with
  | nil => rfl
  | cons f fs ih => simp [coerceFields, coerceField_empty_form, ih]

/-- `ParseToStruct` on a one-field struct is `coerceField` on that
field. -/
theorem ParseToStruct_one (structTag : String) (form : List (String × String)) (f : Field) :
    ParseToStruct structTag (some form) (Container.structPtr [f]) =
      ((coerceField structTag form f).1,
        Container.structPtr [(coerceField structTag form f).2]) := by
  rcases hcf : coerceField structTag form f with ⟨e, f'⟩
  cases e <;> simp [ParseToStruct, coerceFields, hcf]

/-- Partial evaluation of `coerceField` on a boolean field of the
one-field fixture, the raw value left symbolic. -/
theorem coerceField_bool_eval (v : String) (b₀ : Bool) :
    coerceField "form" [("x", v)] ⟨true, false, [("form", "x")], .bool, .bool b₀⟩ =
      (if v = "" then (none, ⟨true, false, [("form", "x")], .bool, .bool b₀⟩)
       else if lowerStr v = "on" ∨ lowerStr v = "1" ∨ lowerStr v = "yes" ∨ lowerStr v = "true" then
         (none, ⟨true, false, [("form", "x")], .bool, .bool true⟩)
       else if lowerStr v = "off" ∨ lowerStr v = "0" ∨ lowerStr v = "no" ∨ lowerStr v = "false" then
         (none, ⟨true, false, [("form", "x")], .bool, .bool false⟩)
       else (none, ⟨true, false, [("form", "x")], .bool, .bool b₀⟩)) := rfl

/-- Partial evaluation of `coerceField` on a signed-integer field of the
one-field fixture. -/
theorem coerceField_int_eval (w : Nat) (v₀ : Int) (s : String) :
    coerceField "form" [("x", s)] ⟨true, false, [("form", "x")], .int w, .int v₀⟩ =
      (if s = "" then (none, ⟨true, false, [("form", "x")], .int w, .int v₀⟩)
       else
         match parseInt64 s with
         | none => (some .numErr, ⟨true, false, [("form", "x")], .int w, .int v₀⟩)
         | some x => (none, ⟨true, false, [("form", "x")], .int w, .int (setIntWrap w x)⟩)) := rfl

/-- Partial evaluation of `coerceField` on an unsigned-integer field of
the one-field fixture. -/
theorem coerceField_uint_eval (w : Nat) (v₀ : Nat) (s : String) :
    coerceField "form" [("x", s)] ⟨true, false, [("form", "x")], .uint w, .uint v₀⟩ =
      (if s = "" then (none, ⟨true, false, [("form", "x")], .uint w, .uint v₀⟩)
       else
         match parseUint64 s with
         | none => (some .numErr, ⟨true, false, [("form", "x")], .uint w, .uint v₀⟩)
         | some x => (none, ⟨true, false, [("form", "x")], .uint w, .uint (setUintWrap w x)⟩)) := rfl

/-- Partial evaluation of `coerceField` on an `[]int` field of the
one-field fixture. -/
theorem coerceField_sliceInt_eval (l₀ : List Int) (s : String) :
    coerceField "form" [("x", s)] ⟨true, false, [("form", "x")], .sliceInt, .sliceInt l₀⟩ =
      (if s = "" then (none, ⟨true, false, [("form", "x")], .sliceInt, .sliceInt l₀⟩)
       else
         match intSliceLoop (splitComma s) 0 (List.replicate (splitComma s).length 0) with
         | (e, l) => (e, ⟨true, false, [("form", "x")], .sliceInt, .sliceInt l⟩)) := rfl

/-- Partial evaluation of `coerceField` on an interface field of the
one-field fixture. -/
theorem coerceField_iface_eval (r : String) (v : GoValue) :
    coerceField "form" [("x", r)] ⟨true, false, [("form", "x")], .iface, v⟩ =
      (if r = "" then (none, ⟨true, false, [("form", "x")], .iface, v⟩)
       else (none, ⟨true, false, [("form", "x")], .iface, .iface (some r)⟩)) := rfl

/-- `coerceField` never touches a field of an unsupported kind. -/
theorem coerceField_unsupported (r : String) (v : GoValue) (k : GoKind)
    (hk : k = .otherStruct ∨ k = .sliceOther ∨ k = .otherKind) :
    coerceField "form" [("x", r)] ⟨true, false, [("form", "x")], k, v⟩ =
      (none, ⟨true, false, [("form", "x")], k, v⟩) := by
  rcases hk with rfl | rfl | rfl
  · exact Eq.trans (rfl :
      coerceField "form" [("x", r)] ⟨true, false, [("form", "x")], .otherStruct, v⟩ =
        if r = "" then (none, ⟨true, false, [("form", "x")], .otherStruct, v⟩)
        else (none, ⟨true, false, [("form", "x")], .otherStruct, v⟩)) (ite_self _)
  · exact Eq.trans (rfl :
      coerceField "form" [("x", r)] ⟨true, false, [("form", "x")], .sliceOther, v⟩ =
        if r = "" then (none, ⟨true, false, [("form", "x")], .sliceOther, v⟩)
        else (none, ⟨true, false, [("form", "x")], .sliceOther, v⟩)) (ite_self _)
  · exact Eq.trans (rfl :
      coerceField "form" [("x", r)] ⟨true, false, [("form", "x")], .otherKind, v⟩ =
        if r = "" then (none, ⟨true, false, [("form", "x")], .otherKind, v⟩)
        else (none, ⟨true, false, [("form", "x")], .otherKind, v⟩)) (ite_self _)

/-- A decoder-list prefix that fails determines the whole run: the
suffix after the failing decoder is never consulted. -/
theorem runDecoders_append (ds₁ : List (Option Decoder)) :
    ∀ (ds₂ : List (Option Decoder)) (c : Container) (e : GoError) (c' : Container),
      runDecoders ds₁ c = (some e, c') →
      runDecoders (ds₁ ++ ds₂) c = (some e, c') := by
  induction ds₁ with
  | nil =>
    intro ds₂ c e c' h
    exact absurd h (by simp [runDecoders])
  | cons hd tl ih =>
    intro ds₂ c e c' h
    cases hd with
    | none =>
      simp only [List.cons_append, runDecoders] at h ⊢
      exact ih ds₂ c e c' h
    | some d =>
      simp only [List.cons_append, runDecoders] at h ⊢
      rcases hdc : d c with ⟨e₁, c₁⟩
      rw [hdc] at h
      cases e₁ with
      | none => exact ih ds₂ c₁ e c' h
      | some e₁ => exact h

/-! ### Claims -/

/-- C1 (counterexample): the claim says a null destination always yields
the type error for every raw-value map including a nil/absent one, but
`ParseToStruct` checks `form == nil` first and returns a nil error there,
even for a nil destination. -/
theorem c1_counterexample :
    ParseToStruct "form" none Container.nil = (none, Container.nil) := rfl

/-- C1 (amended): with a non-nil raw-value map, `ParseToStruct` on a null
or non-struct-pointer destination returns the type error whatever the
map's contents; with a nil map it returns success without validating the
destination; `Magic` returns the type error on an invalid destination
regardless of the decoder list. -/
theorem c1_destination_validation :
    (∀ (tagNs : String) (form : List (String × String)),
      ParseToStruct tagNs (some form) Container.nil = (some GoError.typeErr, Container.nil)) ∧
    (∀ (tagNs : String) (form : List (String × String)),
      ParseToStruct tagNs (some form) Container.notStructPtr =
        (some GoError.typeErr, Container.notStructPtr)) ∧
    (∀ (tagNs : String) (c : Container), ParseToStruct tagNs none c = (none, c)) ∧
    (∀ ds, Magic Container.nil ds = (some GoError.typeErr, Container.nil)) ∧
    (∀ ds, Magic Container.notStructPtr ds = (some GoError.typeErr, Container.notStructPtr)) :=
  ⟨fun _ _ => rfl, fun _ _ => rfl, fun _ _ => rfl, fun _ => rfl, fun _ => rfl⟩

/-- C2 (counterexample): a `time.Time` field holding a non-zero value and
a non-empty raw value shorter than 8 characters: the claim says the field
is left unmodified, but the code stores the zero `time.Time` into it
(the assignment after the length ladder runs unconditionally). -/
theorem c2_counterexample :
    ParseToStruct "form" (some [("x", "1:2:3")])
        (oneField .timeStruct (.time ⟨2023, 5, 1, 0, 0, 0, .local⟩)) =
      (none, oneField .timeStruct (.time zeroTime)) ∧
    zeroTime ≠ (⟨2023, 5, 1, 0, 0, 0, .local⟩ : GoTime) :=
  ⟨rfl, by decide⟩

/-- C2 (amended): a 10-character input parses as a date-only local value;
a 19-character input containing `T` parses as a local date-time; a
non-empty input shorter than 8 characters returns no error but overwrites
the field with the zero `time.Time` (rather than leaving it unmodified);
an input of length ≥ 25 is truncated to 25 characters and parsed only
with the offset-qualified RFC3339 layout, with no fallback to a shorter
layout on failure, a failure failing the call. -/
theorem c2_timestamp_policy (t₀ : GoTime) :
    (ParseToStruct "form" (some [("x", "2023-05-01")]) (oneField .timeStruct (.time t₀)) =
      (none, oneField .timeStruct (.time ⟨2023, 5, 1, 0, 0, 0, .local⟩))) ∧
    (ParseToStruct "form" (some [("x", "2023-05-01T10:20:30")]) (oneField .timeStruct (.time t₀)) =
      (none, oneField .timeStruct (.time ⟨2023, 5, 1, 10, 20, 30, .local⟩))) ∧
    (ParseToStruct "form" (some [("x", "1:2:3")]) (oneField .timeStruct (.time t₀)) =
      (none, oneField .timeStruct (.time zeroTime))) ∧
    (ParseToStruct "form" (some [("x", "2023-05-01 10:20:30+05:00")])
        (oneField .timeStruct (.time t₀)) =
      (some GoError.timeErr, oneField .timeStruct (.time t₀))) ∧
    (ParseToStruct "form" (some [("x", "2023-05-01T10:20:30+05:00X")])
        (oneField .timeStruct (.time t₀)) =
      (none, oneField .timeStruct (.time ⟨2023, 5, 1, 10, 20, 30, .fixedOffset 18000⟩))) :=
  ⟨rfl, rfl, rfl, rfl, rfl⟩

/-- C3: on a settable `[]int` field with a matching tag, raw input
`"1,2,3,4"` stores the ordered list `[1,2,3,4]` and succeeds, while
`"1,2,3,"` returns the parse error of the trailing empty piece. -/
theorem c3_int_list (l₀ : List Int) :
    (ParseToStruct "form" (some [("x", "1,2,3,4")]) (oneField .sliceInt (.sliceInt l₀)) =
      (none, oneField .sliceInt (.sliceInt [1, 2, 3, 4]))) ∧
    (ParseToStruct "form" (some [("x", "1,2,3,")]) (oneField .sliceInt (.sliceInt l₀)) =
      (some GoError.numErr, oneField .sliceInt (.sliceInt [1, 2, 3, 0]))) :=
  ⟨rfl, rfl⟩

/-- C4: when an integer-list piece is malformed, the elements parsed
before the failing piece stay written in the destination field (followed
by the zeros of the fresh slice), so partial mutation is observable on
error: `"1,2,3,"` fails yet leaves `[1,2,3,0]`, `"5,x,7"` fails yet
leaves `[5,0,0]`. -/
theorem c4_partial_mutation :
    (ParseToStruct "form" (some [("x", "1,2,3,")]) (oneField .sliceInt (.sliceInt [])) =
      (some GoError.numErr, oneField .sliceInt (.sliceInt [1, 2, 3, 0]))) ∧
    (ParseToStruct "form" (some [("x", "5,x,7")]) (oneField .sliceInt (.sliceInt [])) =
      (some GoError.numErr, oneField .sliceInt (.sliceInt [5, 0, 0]))) :=
  ⟨rfl, rfl⟩

/-- C5: on a settable boolean field with a matching non-empty raw value,
every case-insensitive variant of `on`, `1`, `yes`, `true` stores `true`;
every case-insensitive variant of `off`, `0`, `no`, `false` stores
`false`; any other text leaves the field unmodified with no error. -/
theorem c5_bool_vocabulary (v : String) (b₀ : Bool) :
    ((lowerStr v = "on" ∨ lowerStr v = "1" ∨ lowerStr v = "yes" ∨ lowerStr v = "true") →
      ParseToStruct "form" (some [("x", v)]) (oneField .bool (.bool b₀)) =
        (none, oneField .bool (.bool true))) ∧
    ((lowerStr v = "off" ∨ lowerStr v = "0" ∨ lowerStr v = "no" ∨ lowerStr v = "false") →
      ParseToStruct "form" (some [("x", v)]) (oneField .bool (.bool b₀)) =
        (none, oneField .bool (.bool false))) ∧
    (v ≠ "" →
      ¬(lowerStr v = "on" ∨ lowerStr v = "1" ∨ lowerStr v = "yes" ∨ lowerStr v = "true") →
      ¬(lowerStr v = "off" ∨ lowerStr v = "0" ∨ lowerStr v = "no" ∨ lowerStr v = "false") →
      ParseToStruct "form" (some [("x", v)]) (oneField .bool (.bool b₀)) =
        (none, oneField .bool (.bool b₀))) := by
  refine ⟨fun h => ?_, fun h => ?_, fun hv hn₁ hn₂ => ?_⟩
  · have hv : ¬(v = "") := by rintro rfl; exact absurd h (by decide)
    simp only [oneField, ParseToStruct_one, coerceField_bool_eval, if_neg hv, if_pos h]
  · have hv : ¬(v = "") := by rintro rfl; exact absurd h (by decide)
    have hn : ¬(lowerStr v = "on" ∨ lowerStr v = "1" ∨ lowerStr v = "yes" ∨ lowerStr v = "true") := by
      rcases h with h | h | h | h <;> rw [h] <;> decide
    simp only [oneField, ParseToStruct_one, coerceField_bool_eval, if_neg hv, if_neg hn, if_pos h]
  · simp only [oneField, ParseToStruct_one, coerceField_bool_eval, if_neg hv, if_neg hn₁,
      if_neg hn₂]

/-- C5 (witness): the three cases of `c5_bool_vocabulary` at the concrete
inputs `"YES"`, `"No"` and `"banana"`. -/
theorem c5_witness :
    (ParseToStruct "form" (some [("x", "YES")]) (oneField .bool (.bool false)) =
      (none, oneField .bool (.bool true))) ∧
    (ParseToStruct "form" (some [("x", "No")]) (oneField .bool (.bool true)) =
      (none, oneField .bool (.bool false))) ∧
    (ParseToStruct "form" (some [("x", "banana")]) (oneField .bool (.bool true)) =
      (none, oneField .bool (.bool true))) :=
  ⟨(c5_bool_vocabulary "YES" false).1 (by decide),
   (c5_bool_vocabulary "No" true).2.1 (by decide),
   (c5_bool_vocabulary "banana" true).2.2 (by decide) (by decide) (by decide)⟩

/-- C6: the pipeline runner skips nil decoder entries without effect,
runs the remaining decoders in the caller's order, and stops at the first
decoder returning an error, which it returns; decoders after the failing
one never run (the appended suffix is irrelevant). -/
theorem c6_pipeline :
    (∀ (c : Container) (ds : List (Option Decoder)), Magic c (none :: ds) = Magic c ds) ∧
    (∀ (c : Container) (d : Decoder) (ds : List (Option Decoder)) (e : GoError) (c' : Container),
      isStructPtr c = true → d c = (some e, c') → Magic c (some d :: ds) = (some e, c')) ∧
    (∀ (c : Container) (d : Decoder) (ds : List (Option Decoder)) (c' : Container),
      isStructPtr c = true → d c = (none, c') → Magic c (some d :: ds) = runDecoders ds c') ∧
    (∀ (ds₁ ds₂ : List (Option Decoder)) (c : Container) (e : GoError) (c' : Container),
      isStructPtr c = true → runDecoders ds₁ c = (some e, c') →
      Magic c (ds₁ ++ ds₂) = (some e, c')) := by
  refine ⟨fun c ds => ?_, fun c d ds e c' hc hd => ?_, fun c d ds c' hc hd => ?_,
    fun ds₁ ds₂ c e c' hc h => ?_⟩
  · cases c <;> rfl
  · cases c with
    | structPtr fs =>
      have h₀ : Magic (Container.structPtr fs) (some d :: ds) =
          runDecoders (some d :: ds) (Container.structPtr fs) := rfl
      rw [h₀]
      simp only [runDecoders]
      rw [hd]
    | nil => simp [isStructPtr] at hc
    | notStructPtr => simp [isStructPtr] at hc
  · cases c with
    | structPtr fs =>
      have h₀ : Magic (Container.structPtr fs) (some d :: ds) =
          runDecoders (some d :: ds) (Container.structPtr fs) := rfl
      rw [h₀]
      simp only [runDecoders]
      rw [hd]
    | nil => simp [isStructPtr] at hc
    | notStructPtr => simp [isStructPtr] at hc
  · cases c with
    | structPtr fs =>
      have h₀ : Magic (Container.structPtr fs) (ds₁ ++ ds₂) =
          runDecoders (ds₁ ++ ds₂) (Container.structPtr fs) := rfl
      rw [h₀]
      exact runDecoders_append ds₁ ds₂ (Container.structPtr fs) e c' h
    | nil => simp [isStructPtr] at hc
    | notStructPtr => simp [isStructPtr] at hc

/-- A decoder that succeeds and leaves the container unchanged. -/
def decOk : Decoder := fun c => (none, c)

/-- A decoder that fails with a parse error and leaves the container
unchanged. -/
def decFail : Decoder := fun c => (some .numErr, c)

/-- C6 (witness): the four parts of `c6_pipeline` at concrete decoder
lists over an empty struct. -/
theorem c6_witness :
    (Magic (Container.structPtr []) [none] = Magic (Container.structPtr []) []) ∧
    (Magic (Container.structPtr []) [some decFail, some decOk] =
      (some GoError.numErr, Container.structPtr [])) ∧
    (Magic (Container.structPtr []) [some decOk, none] =
      runDecoders [none] (Container.structPtr [])) ∧
    (Magic (Container.structPtr []) ([some decFail] ++ [some decOk]) =
      (some GoError.numErr, Container.structPtr [])) :=
  ⟨c6_pipeline.1 (Container.structPtr []) [],
   c6_pipeline.2.1 (Container.structPtr []) decFail [some decOk] GoError.numErr
     (Container.structPtr []) rfl rfl,
   c6_pipeline.2.2.1 (Container.structPtr []) decOk [none] (Container.structPtr []) rfl rfl,
   c6_pipeline.2.2.2 [some decFail] [some decOk] (Container.structPtr []) GoError.numErr
     (Container.structPtr []) rfl rfl⟩

/-- C7 (counterexample): an interface-typed field with a matching
non-empty raw value is NOT left unmodified: the claim lists interface
among the unsupported no-op types, but the code's `reflect.Interface`
case assigns the raw string to the field. -/
theorem c7_counterexample :
    ParseToStruct "form" (some [("x", "hello")]) (oneField .iface (.iface none)) =
      (none, oneField .iface (.iface (some "hello"))) ∧
    GoValue.iface (some "hello") ≠ GoValue.iface none :=
  ⟨rfl, by decide⟩

/-- C7 (amended): a settable field of an unsupported declared kind — a
non-`time.Time` struct, a slice other than `[]int`/`[]string`, or any
kind outside the switch — is left unmodified with no error even when a
matching non-empty raw value exists; interface-typed fields are an
exception: they are assigned the raw string verbatim. -/
theorem c7_unsupported_kinds (raw : String) (v : GoValue) (k : GoKind)
    (hk : k = .otherStruct ∨ k = .sliceOther ∨ k = .otherKind) :
    (ParseToStruct "form" (some [("x", raw)]) (oneField k v) = (none, oneField k v)) ∧
    (raw ≠ "" →
      ParseToStruct "form" (some [("x", raw)]) (oneField .iface v) =
        (none, oneField .iface (.iface (some raw)))) := by
  constructor
  · simp only [oneField, ParseToStruct_one, coerceField_unsupported raw v k hk]
  · intro hraw
    simp only [oneField, ParseToStruct_one, coerceField_iface_eval, if_neg hraw]

/-- C7 (witness): `c7_unsupported_kinds` at the raw value `"hello"`, an
embedded plain struct kind and an interface field. -/
theorem c7_witness :
    (ParseToStruct "form" (some [("x", "hello")]) (oneField .otherStruct .structVal) =
      (none, oneField .otherStruct .structVal)) ∧
    (ParseToStruct "form" (some [("x", "hello")]) (oneField .iface (.iface (some "old"))) =
      (none, oneField .iface (.iface (some "hello")))) :=
  ⟨(c7_unsupported_kinds "hello" .structVal .otherStruct (Or.inl rfl)).1,
   (c7_unsupported_kinds "hello" (.iface (some "old")) .otherStruct (Or.inl rfl)).2 (by decide)⟩

/-- C8 (counterexample): an empty (non-nil) raw-value map with a null
destination is NOT a success: the nil-map short circuit does not fire,
so the struct-pointer validation runs and fails. -/
theorem c8_counterexample :
    ParseToStruct "form" (some []) Container.nil = (some GoError.typeErr, Container.nil) := rfl

/-- C8 (amended): a nil raw-value map is a success no-op for every
destination (validation is skipped); an empty non-nil map is a success
no-op for every struct-pointer destination, destination validation still
applying first. -/
theorem c8_empty_map_noop :
    (∀ (tagNs : String) (c : Container), ParseToStruct tagNs none c = (none, c)) ∧
    (∀ (tagNs : String) (fields : List Field),
      ParseToStruct tagNs (some []) (Container.structPtr fields) =
        (none, Container.structPtr fields)) := by
  refine ⟨fun _ _ => rfl, fun tagNs fields => ?_⟩
  simp [ParseToStruct, coerceFields_empty_form]

/-- C9 (counterexample): the well-formed input `"300"` on an 8-bit
signed field does not make the call panic or fail: it returns success
and the field holds `44`, the value truncated to 8 bits. -/
theorem c9_counterexample :
    ParseToStruct "form" (some [("x", "300")]) (oneField (.int 8) (.int 1)) =
      (none, oneField (.int 8) (.int 44)) ∧
    parseInt64 "300" = some 300 :=
  ⟨rfl, rfl⟩

/-- C9 (amended): signed raw values are parsed at 64-bit width whatever
the declared field width, and the store truncates to the field's width
(two's-complement wrap) with no range check, silently and without error;
unsigned fields wrap modulo `2 ^ width` the same way.  Concretely:
`"300"` stores 44 in 8-bit fields, `"70000"` stores 4464 in 16-bit
fields, `"5000000000"` stores 705032704 in 32-bit fields. -/
theorem c9_narrow_width_wrap :
    (∀ (w : Nat) (v₀ : Int) (s : String) (x : Int), parseInt64 s = some x →
      ParseToStruct "form" (some [("x", s)]) (oneField (.int w) (.int v₀)) =
        (none, oneField (.int w) (.int (Int.bmod x (2 ^ w))))) ∧
    (∀ (w : Nat) (v₀ : Nat) (s : String) (x : Nat), parseUint64 s = some x →
      ParseToStruct "form" (some [("x", s)]) (oneField (.uint w) (.uint v₀)) =
        (none, oneField (.uint w) (.uint (x % 2 ^ w)))) ∧
    (ParseToStruct "form" (some [("x", "300")]) (oneField (.int 8) (.int 0)) =
      (none, oneField (.int 8) (.int 44))) ∧
    (ParseToStruct "form" (some [("x", "70000")]) (oneField (.int 16) (.int 0)) =
      (none, oneField (.int 16) (.int 4464))) ∧
    (ParseToStruct "form" (some [("x", "5000000000")]) (oneField (.int 32) (.int 0)) =
      (none, oneField (.int 32) (.int 705032704))) ∧
    (ParseToStruct "form" (some [("x", "300")]) (oneField (.uint 8) (.uint 0)) =
      (none, oneField (.uint 8) (.uint 44))) ∧
    (ParseToStruct "form" (some [("x", "70000")]) (oneField (.uint 16) (.uint 0)) =
      (none, oneField (.uint 16) (.uint 4464))) ∧
    (ParseToStruct "form" (some [("x", "5000000000")]) (oneField (.uint 32) (.uint 0)) =
      (none, oneField (.uint 32) (.uint 705032704))) := by
  refine ⟨fun w v₀ s x h => ?_, fun w v₀ s x h => ?_, rfl, rfl, rfl, rfl, rfl, rfl⟩
  · have hs : ¬(s = "") := by
      rintro rfl
      have hne : parseInt64 "" = (none : Option Int) := rfl
      rw [hne] at h
      cases h
    simp only [oneField, ParseToStruct_one, coerceField_int_eval, if_neg hs, h, setIntWrap]
  · have hs : ¬(s = "") := by
      rintro rfl
      have hne : parseUint64 "" = (none : Option Nat) := rfl
      rw [hne] at h
      cases h
    simp only [oneField, ParseToStruct_one, coerceField_uint_eval, if_neg hs, h, setUintWrap]

/-- C9 (witness): the two universally-quantified parts of
`c9_narrow_width_wrap` at width 8, prior value 7 and input `"300"`. -/
theorem c9_witness :
    (ParseToStruct "form" (some [("x", "300")]) (oneField (.int 8) (.int 7)) =
      (none, oneField (.int 8) (.int (Int.bmod 300 (2 ^ 8))))) ∧
    (ParseToStruct "form" (some [("x", "300")]) (oneField (.uint 8) (.uint 7)) =
      (none, oneField (.uint 8) (.uint (300 % 2 ^ 8)))) :=
  ⟨c9_narrow_width_wrap.1 8 7 "300" 300 (by decide),
   c9_narrow_width_wrap.2.1 8 7 "300" 300 (by decide)⟩

/-- C10: on an integer-list assignment the field is first replaced by a
fresh zero-valued slice as long as the piece count, before any element is
parsed: the result is independent of the field's previous contents, and
on a parse error the field holds the parsed prefix followed by zeros —
`"1,2,3,"` always leaves exactly `[1,2,3,0]`. -/
theorem c10_fresh_zero_slice (l₀ l₁ : List Int) (s : String) (hs : s ≠ "") :
    (ParseToStruct "form" (some [("x", s)]) (oneField .sliceInt (.sliceInt l₀)) =
      ParseToStruct "form" (some [("x", s)]) (oneField .sliceInt (.sliceInt l₁))) ∧
    (ParseToStruct "form" (some [("x", "1,2,3,")]) (oneField .sliceInt (.sliceInt l₀)) =
      (some GoError.numErr, oneField .sliceInt (.sliceInt [1, 2, 3, 0]))) := by
  constructor
  · simp only [oneField, ParseToStruct_one, coerceField_sliceInt_eval, if_neg hs]
  · exact rfl

/-- C10 (witness): `c10_fresh_zero_slice` at two different prior slice
values and the input `"1,2,3,"`. -/
theorem c10_witness :
    (ParseToStruct "form" (some [("x", "1,2,3,")]) (oneField .sliceInt (.sliceInt [9, 9])) =
      ParseToStruct "form" (some [("x", "1,2,3,")]) (oneField .sliceInt (.sliceInt [7]))) ∧
    (ParseToStruct "form" (some [("x", "1,2,3,")]) (oneField .sliceInt (.sliceInt [9, 9])) =
      (some GoError.numErr, oneField .sliceInt (.sliceInt [1, 2, 3, 0]))) :=
  c10_fresh_zero_slice [9, 9] [7] "1,2,3," (by decide)

end Decode
